import Mathlib

/-!
Verification of the batch-orchestration core of `src/lib/cli.js` (yeti).

The JavaScript source is shallowly embedded: the mutable `batchDetails`
object becomes the `BatchState` structure, each `batch.on(...)` handler
becomes a pure state-transforming function, console output becomes a list
of structured `OutLine` values (the out-of-scope color module is abstracted
away, keeping the textual payload of each line), and `process.exit` /
thrown exceptions become explicit `Except` results.  JavaScript numbers
appearing in the progress computation are modelled exactly over `ℚ`
extended with `NaN` and the infinities (`JsNum`); finite-precision effects
of IEEE doubles are not modelled, and no claim here depends on them.
-/

namespace Yeti

/-- Glyph `good` from cli.js line 12. -/
def good : String := "✔"

/-- Glyph `bad` from cli.js line 13. -/
def bad : String := "✖"

/-- Outcome of `panic()` (cli.js lines 22-26): print a message and
`process.exit(1)`. -/
structure FatalExit where
  message : String
  exitCode : Nat
deriving Repr, DecidableEq

/-- Function `panic()` from cli.js lines 22-26: report the message, exit status 1. -/
def panic (message : String) : FatalExit := ⟨message, 1⟩

/-! ## JavaScript value model for the result trees -/

/-- A JavaScript value as it occurs in result trees: `undefined`, a number,
a string, or an object whose own enumerable properties are kept in
insertion order.  (`null`, booleans and reference identity of objects are
never exercised by the embedded code paths.) -/
inductive JsVal where
  | undefined
  | num (n : Int)
  | str (s : String)
  | obj (fields : List (String × JsVal))

/-- Property access `v.k` / `v[k]`: lookup on objects, `undefined`
otherwise (the properties read by cli.js — `result`, `message`, `name`,
`failed` — are absent from primitive prototypes). -/
def JsVal.get : JsVal → String → JsVal
  | .obj fs, k => match fs.lookup k with
    | some v => v
    | none => .undefined
  | _, _ => .undefined

/-- The `in` operator: `k in v`.  On a non-object JavaScript throws a
TypeError; cli.js only applies it to objects (`hasResults` is reached only
behind a `typeof === "object"` guard), so the non-object case is
unreachable and modelled as `false`. -/
def JsVal.hasKey : JsVal → String → Bool
  | .obj fs, k => (fs.lookup k).isSome
  | _, _ => false

/-- JavaScript truthiness of the modelled values. -/
def truthy : JsVal → Bool
  | .undefined => false
  | .num n => n != 0
  | .str s => s != ""
  | .obj _ => true

/-- Test `"object" === typeof v` (no `null` in the model). -/
def jsTypeofObject : JsVal → Bool
  | .obj _ => true
  | _ => false

/-- Strict equality `===` restricted to the value shapes that reach it.
Objects compare by reference in JavaScript; distinct structural objects
are modelled as unequal (reference equality on the same object is never
exercised: `lastSuite` only ever holds `undefined` or a suite-name
value). -/
def strictEq : JsVal → JsVal → Bool
  | .undefined, .undefined => true
  | .num a, .num b => a == b
  | .str a, .str b => a == b
  | _, _ => false

/-- Strict equality of a value against a string literal, as in
`"fail" === test.result`. -/
def strictEqStr (v : JsVal) (s : String) : Bool :=
  match v with
  | .str t => t == s
  | _ => false

/-- Console stringification of a value interpolated into an output line
(used for `suite.name` and `test.name`). -/
def jsDisplay : JsVal → String
  | .undefined => "undefined"
  | .num n => toString n
  | .str s => s
  | .obj _ => "[object Object]"

/-- The values visited by `for (i in o)` reading `o[i]`: an object's own
enumerable property values in insertion order; a string's characters (JS
enumerates the index keys of a string); nothing for other primitives. -/
def jsEnumerate : JsVal → List JsVal
  | .obj fs => fs.map (fun f => f.2)
  | .str s => s.toList.map (fun c => .str (String.singleton c))
  | _ => []

/-! ## Structured console output -/

/-- One line (or one coherent group of `error(...)` calls) written to the
console by the embedded code.  Color wrapping from the out-of-scope color
module is dropped; the textual payload is kept. -/
inductive OutLine where
  /-- Line `error("   in", bold(suite.name))` — cli.js line 106 -/
  | suiteLine (name : String)
  /-- Line `error("    ", red(bold(test.name)) + ":", msg[0])` — line 110 -/
  | testLine (name : String) (firstLine : String)
  /-- Line `error("       " + msg[m])` — line 112 -/
  | contLine (text : String)
  /-- Line `error("")` — line 148 -/
  | blankLine
  /-- Line `error(iconColor(icon), bold(details.name), "on", agent)` — line 187 -/
  | agentFailLine (name : String) (agent : String)
  /-- the four `error` calls of the `agentScriptError` handler, lines 193-196 -/
  | scriptErrorLine (message : String) (url : String) (line : Int) (agent : String)
  /-- the two `error` calls of the `agentError` handler, lines 200-201 -/
  | errorLine (message : String) (agent : String)
  /-- Line `error(good, "Agent completed:", agent)` — line 205 -/
  | agentCompleteLine (agent : String)
  /-- Line `error(good, "Testing started on", agents.join(", "))` — line 221 -/
  | startedLine (agents : List String)
  /-- the progress line written by `updateProgress`, lines 160-167 -/
  | progress (glyph : String) (percentStr : String) (current : Nat) (total : Nat)
      (tpsStr : String)
  /-- Line `error(red("Failures") + ":", failed, "of", total, "tests failed.", durationString)` — lines 232-233 -/
  | failTally (failed : Nat) (total : Nat) (duration : Int)
  /-- Line `error(green(total + " tests passed!"), durationString)` — line 236 -/
  | passTally (total : Nat) (duration : Int)
  /-- the message printed by `panic` -/
  | panicLine (message : String)
  /-- the formatted report of the `uncaughtException` handler -/
  | uncaughtLine (message : String)
deriving Repr, DecidableEq

/-- Holds (`true`) exactly on the two aggregate tally lines of the `complete`
handler. -/
def isTally : OutLine → Bool
  | .failTally _ _ _ => true
  | .passTally _ _ => true
  | _ => false

/-! ## `displayVerboseResult` (cli.js lines 98-149), the Result Tree Walker

The closures of the source capture the loop variables `suite`, `test` and
the mutable `lastSuite`; the embedding passes them explicitly.  Two quirks
of the source are preserved exactly:
* `hasResults` declares a parameter `o` but tests the enclosing variable
  `test` (line 117), so every call `hasResults(x)` ignores `x`;
* the top-level loop calls `walk(test)` when `hasResults(test)` holds and
  `reportTestError(test)` otherwise (lines 138-142), the opposite of the
  branching inside `walk` (lines 119-128).
-/

/-- The single exception class the walker can raise:
`test.message.split` throws when `message` is not a string (reachable only
on a failing-shaped node without a string `message`). -/
inductive JsErr where
  | typeError
deriving Repr, DecidableEq

/-- The mutable state threaded through the walk: `lastSuite` (cli.js line
99, initially `undefined`) and the lines printed so far.  When the walker
throws, lines already printed are dropped from the model (no theorem here
inspects the output of a throwing run). -/
structure DisplayState where
  lastSuite : JsVal
  out : List OutLine

/-- Helper for `splitNewlines`: accumulate the current line while
scanning the characters. -/
def splitLinesAux : List Char → String → List String
  | [], acc => [acc]
  | c :: rest, acc =>
    if c = '\n' then acc :: splitLinesAux rest ""
    else splitLinesAux rest (acc.push c)

/-- Model of `message.split("\n")` (cli.js line 109): split on each newline; the
empty string yields `[""]`, exactly as in JavaScript. -/
def splitNewlines (s : String) : List String :=
  splitLinesAux s.toList ""

/-- Predicate `hasResults` (cli.js lines 116-118).  The source's parameter is
ignored; it reads the enclosing `test`, which the embedding receives
explicitly. -/
def hasResults (test : JsVal) : Bool :=
  test.hasKey "passed" && test.hasKey "failed" && test.hasKey "type"

/-- Closure `reportTestError` (cli.js lines 101-115), for the enclosing `suite`. -/
def reportTestError (suite : JsVal) (t : JsVal) (ds : DisplayState) :
    Except JsErr DisplayState :=
  if strictEqStr (t.get "result") "fail" then
    let ds1 :=
      if !(truthy ds.lastSuite) || !(strictEq ds.lastSuite (suite.get "name")) then
        { ds with
          lastSuite := suite.get "name"
          out := ds.out ++ [OutLine.suiteLine (jsDisplay (suite.get "name"))] }
      else ds
    match t.get "message" with
    | .str m =>
      let msg := splitNewlines m
      Except.ok { ds1 with
        out := ds1.out ++ [OutLine.testLine (jsDisplay (t.get "name")) (msg.headD "")]
          ++ (msg.drop 1).map OutLine.contLine }
    | _ => Except.error JsErr.typeError
  else Except.ok ds

/-- The body of `walk`'s `for (i in o)` loop when `o` is a string: JS
enumerates the index keys, and `o[i]` is a one-character string.  When
`hasResults test` is false the source would recurse into `walk` on that
one-character string and diverge; that configuration is unreachable
(`walk` is only ever entered from line 139, behind `hasResults(test)`
being true) and is modelled as a no-op. -/
def walkChars (test suite : JsVal) : List Char → DisplayState →
    Except JsErr DisplayState
  | [], ds => Except.ok ds
  | c :: rest, ds =>
    match (if hasResults test then
        reportTestError suite (.str (String.singleton c)) ds
      else Except.ok ds) with
    | .error e => .error e
    | .ok ds1 => walkChars test suite rest ds1

mutual

/-- Closure `walk` (cli.js lines 119-128): `for (i in o)`, reporting `o[i]` when
`hasResults(o[i])` — which, by the closure quirk, tests the enclosing
`test` — and recursing otherwise. -/
def walk (test suite : JsVal) (o : JsVal) (ds : DisplayState) :
    Except JsErr DisplayState :=
  match o with
  | .obj fs => walkFields test suite fs ds
  | .str s => walkChars test suite s.toList ds
  | _ => .ok ds

/-- The loop of `walk` over an object's own properties in insertion
order. -/
def walkFields (test suite : JsVal) (fs : List (String × JsVal))
    (ds : DisplayState) : Except JsErr DisplayState :=
  match fs with
  | [] => .ok ds
  | (_, v) :: rest =>
    match (if hasResults test then reportTestError suite v ds
      else walk test suite v ds) with
    | .error e => .error e
    | .ok ds1 => walkFields test suite rest ds1

end

/-- The inner loop of `displayVerboseResult` (cli.js lines 135-144):
`for (k1 in suite)` with `test = suite[k1]`. -/
def suiteLoop (suite : JsVal) : List JsVal → DisplayState →
    Except JsErr DisplayState
  | [], ds => .ok ds
  | testV :: rest, ds =>
    match (if jsTypeofObject testV then
        (if hasResults testV then walk testV suite testV ds
         else reportTestError suite testV ds)
      else .ok ds) with
    | .error e => .error e
    | .ok ds1 => suiteLoop suite rest ds1

/-- The outer loop of `displayVerboseResult` (cli.js lines 131-147):
`for (k in result)` with `suite = result[k]`, entered only when `suite` is
an object with a truthy `failed` property. -/
def resultLoop : List JsVal → DisplayState → Except JsErr DisplayState
  | [], ds => .ok ds
  | suiteV :: rest, ds =>
    match (if jsTypeofObject suiteV then
        (if truthy (suiteV.get "failed") then
          suiteLoop suiteV (jsEnumerate suiteV) ds
         else .ok ds)
      else .ok ds) with
    | .error e => .error e
    | .ok ds1 => resultLoop rest ds1

/-- Function `displayVerboseResult` (cli.js lines 98-149): walk the per-agent
result tree and print each failing leaf the loops reach, then a trailing
blank line (line 148). -/
def displayVerboseResult (result : JsVal) : Except JsErr (List OutLine) :=
  match resultLoop (jsEnumerate result) ⟨.undefined, []⟩ with
  | .error e => .error e
  | .ok ds => .ok (ds.out ++ [OutLine.blankLine])

/-! ## JavaScript numbers for the progress computation

`updateProgress` divides by quantities that can be zero; JavaScript yields
`NaN` or an infinity there instead of faulting.  Finite values are modelled
exactly over `ℚ`. -/

/-- A JavaScript number as needed by `updateProgress`: `NaN`, the two
infinities, or a finite value. -/
inductive JsNum where
  | nan
  | inf
  | ninf
  | fin (q : ℚ)
deriving Repr, DecidableEq

/-- JavaScript division: `0/0` is `NaN`, `x/0` is a signed infinity for
`x ≠ 0`, finite division is exact. -/
def jsDiv (x y : JsNum) : JsNum :=
  match x, y with
  | .fin a, .fin b =>
    if b = 0 then (if a = 0 then .nan else if 0 < a then .inf else .ninf)
    else .fin (a / b)
  | .nan, _ => .nan
  | _, .nan => .nan
  | .inf, .fin b => if 0 ≤ b then .inf else .ninf
  | .ninf, .fin b => if 0 ≤ b then .ninf else .inf
  | .fin _, .inf => .fin 0
  | .fin _, .ninf => .fin 0
  | .inf, .inf => .nan
  | .inf, .ninf => .nan
  | .ninf, .inf => .nan
  | .ninf, .ninf => .nan

/-- JavaScript multiplication on the same number model. -/
def jsMul (x y : JsNum) : JsNum :=
  match x, y with
  | .fin a, .fin b => .fin (a * b)
  | .nan, _ => .nan
  | _, .nan => .nan
  | .inf, .fin b => if b = 0 then .nan else if 0 < b then .inf else .ninf
  | .fin a, .inf => if a = 0 then .nan else if 0 < a then .inf else .ninf
  | .ninf, .fin b => if b = 0 then .nan else if 0 < b then .ninf else .inf
  | .fin a, .ninf => if a = 0 then .nan else if 0 < a then .ninf else .inf
  | .inf, .inf => .inf
  | .inf, .ninf => .ninf
  | .ninf, .inf => .ninf
  | .ninf, .ninf => .inf

/-- Rendering `x.toFixed(0)`: `"NaN"` for `NaN`, `"Infinity"` for the infinity, and
round-half-away-from-zero-after-taking-the-sign for finite values (the
ECMAScript rule: the sign is split off first, then ties round up). -/
def jsToFixed0 : JsNum → String
  | .nan => "NaN"
  | .inf => "Infinity"
  | .ninf => "-Infinity"
  | .fin q =>
    if q < 0 then "-" ++ toString (Int.floor (-q + 1/2))
    else toString (Int.floor (q + 1/2))

/-- Rendering `x.toFixed(2)` under the same rules, with two decimal digits. -/
def jsToFixed2 : JsNum → String
  | .nan => "NaN"
  | .inf => "Infinity"
  | .ninf => "-Infinity"
  | .fin q =>
    let sign := if q < 0 then "-" else ""
    let n := (Int.floor (|q| * 100 + 1/2)).toNat
    sign ++ toString (n / 100) ++ "." ++
      (if n % 100 < 10 then "0" ++ toString (n % 100) else toString (n % 100))

/-! ## The batch aggregate and the event handlers of `submitBatch`
(cli.js lines 83-240) -/

/-- The run-scoped mutable state of `submitBatch`: the `batchDetails`
object (lines 91-96) together with the `beats` heartbeat counter (line 89)
and the spinner index `spinIndex` (line 90). -/
structure BatchState where
  passed : Nat
  failed : Nat
  currentIndex : Nat
  total : Nat
  beats : Nat
  spinIndex : Nat
deriving Repr, DecidableEq

/-- The initial state of a submitted batch (cli.js lines 88-96):
counters zero, `total` starts as `tests.length`. -/
def initialBatchState (tests : List String) : BatchState :=
  { passed := 0, failed := 0, currentIndex := 0, total := tests.length
    beats := 0, spinIndex := 0 }

/-- List `spin`, the four spinner frames (cli.js line 157). -/
def spin : List String := ["/", "|", "\\", "-"]

/-- The percent-complete value `current / total * 100` computed by
`updateProgress` (cli.js line 155), under JavaScript number semantics. -/
def progressPercent (current total : Nat) : JsNum :=
  jsMul (jsDiv (JsNum.fin (current : ℚ)) (JsNum.fin (total : ℚ))) (JsNum.fin 100)

/-- Function `updateProgress` (cli.js lines 151-173): render the progress line from
the current counters and advance the spinner index, wrapping after the
last frame (`spins = spin.length - 1`; lines 169-172).  `now` and
`timeStart` are the clock readings; `spin[spinIndex]` out of range would
render as `"undefined"` in JavaScript. -/
def updateProgress (now timeStart : Int) (st : BatchState) :
    BatchState × List OutLine :=
  let percent := progressPercent st.currentIndex st.total
  let tps := jsDiv (JsNum.fin ((st.beats * 1000 : Nat) : ℚ))
    (JsNum.fin ((now - timeStart : Int) : ℚ))
  let spins := spin.length - 1
  let line := OutLine.progress (spin.getD st.spinIndex "undefined")
    (jsToFixed0 percent) st.currentIndex st.total (jsToFixed2 tps)
  let si := st.spinIndex + 1
  ({ st with spinIndex := if si > spins then 0 else si }, [line])

/-- The payload of an `agentResult` event: the fields of `details` the
handler reads (`passed`, `failed`, `name`; cli.js lines 176-187) plus the
whole `details` object as the tree handed to `displayVerboseResult`
(line 188).  The claims quantify over non-negative counts, hence `Nat`. -/
structure AgentResultDetails where
  name : String
  passed : Nat
  failed : Nat
  tree : JsVal

/-- The `agentResult` handler (cli.js lines 175-190): bump `currentIndex`
and add the outcome's counts; when `failed` is truthy, print the failure
summary line and walk the result tree.  The state update happens before
any printing, exactly as in the source; a `TypeError` thrown by the walk
is surfaced in the output component. -/
def onAgentResult (agent : String) (d : AgentResultDetails) (st : BatchState) :
    BatchState × Except JsErr (List OutLine) :=
  let st1 := { st with
    currentIndex := st.currentIndex + 1
    passed := st.passed + d.passed
    failed := st.failed + d.failed }
  let out := if d.failed ≠ 0 then
      (displayVerboseResult d.tree).map
        (fun ls => OutLine.agentFailLine d.name agent :: ls)
    else Except.ok []
  (st1, out)

/-- The payload of an `agentScriptError` event (cli.js lines 192-197). -/
structure ScriptErrorDetails where
  message : String
  url : String
  line : Int

/-- The `agentScriptError` handler (cli.js lines 192-197): log only. -/
def onAgentScriptError (agent : String) (d : ScriptErrorDetails)
    (st : BatchState) : BatchState × List OutLine :=
  (st, [OutLine.scriptErrorLine d.message d.url d.line agent])

/-- The `agentError` handler (cli.js lines 199-202): log only. -/
def onAgentError (agent message : String) (st : BatchState) :
    BatchState × List OutLine :=
  (st, [OutLine.errorLine message agent])

/-- The `agentComplete` handler (cli.js lines 204-206): log only. -/
def onAgentComplete (agent : String) (st : BatchState) :
    BatchState × List OutLine :=
  (st, [OutLine.agentCompleteLine agent])

/-- The `agentBeat` handler (cli.js lines 212-215): bump `beats`, then
re-render the progress line. -/
def onAgentBeat (now timeStart : Int) (st : BatchState) :
    BatchState × List OutLine :=
  updateProgress now timeStart { st with beats := st.beats + 1 }

/-- The panic message of the empty-dispatch case (cli.js line 219):
`panic(bad, "No browsers connected, exiting.")`, with `console.error`
joining the arguments by a space. -/
def noBrowsersMessage : String := bad ++ " " ++ "No browsers connected, exiting."

/-- The `dispatch` handler (cli.js lines 217-223): with no agents, panic;
otherwise log the started line and multiply `total` by the agent count. -/
def onDispatch (agents : List String) (st : BatchState) :
    Except FatalExit (BatchState × List OutLine) :=
  if agents.length = 0 then
    Except.error (panic noBrowsersMessage)
  else
    Except.ok ({ st with total := st.total * agents.length },
      [OutLine.startedLine agents])

/-- Everything the `complete` handler leaves behind: the state after its
own `updateProgress` call, the lines it printed, and the status passed to
`process.exit`. -/
structure CompleteOutcome where
  finalState : BatchState
  output : List OutLine
  exitCode : Nat
deriving Repr, DecidableEq

/-- The `complete` handler (cli.js lines 225-239): render the progress
line once more, compute the duration and the tally, then exit 1 when
`failed` is truthy and 0 otherwise, printing a tally line either way. -/
def onComplete (now timeStart : Int) (st : BatchState) : CompleteOutcome :=
  let r := updateProgress now timeStart st
  let duration := now - timeStart
  let total := r.1.passed + r.1.failed
  if r.1.failed ≠ 0 then
    ⟨r.1, r.2 ++ [OutLine.failTally r.1.failed total duration], 1⟩
  else
    ⟨r.1, r.2 ++ [OutLine.passTally total duration], 0⟩

/-! ## Driving a whole event stream -/

/-- The batch event vocabulary of cli.js lines 175-239.  The
progress-bearing events carry the clock reading the handler would make
(`Number(new Date())` / `(new Date()).getTime()`), an input of the run. -/
inductive BatchEvent where
  | agentResult (agent : String) (details : AgentResultDetails)
  | agentScriptError (agent : String) (details : ScriptErrorDetails)
  | agentError (agent : String) (message : String)
  | agentComplete (agent : String)
  | agentProgress (agent : String) (now : Int)
  | agentBeat (agent : String) (now : Int)
  | dispatch (agents : List String)
  | complete (now : Int)

/-- A terminated run: the lines its terminal step printed and the process
exit status.  Produced by `panic`, by the `complete` handler, or by an
exception escaping a handler (which the `uncaughtException` handler of
`setupProcess` turns into `panic`, exit status 1). -/
structure ExitOutcome where
  output : List OutLine
  exitCode : Nat
deriving Repr, DecidableEq

/-- One event dispatched to its `batch.on` handler: either the run goes on
with a new state (and some output), or the process terminates. -/
def stepEvent (timeStart : Int) (st : BatchState) :
    BatchEvent → Except ExitOutcome (BatchState × List OutLine)
  | .agentResult agent d =>
    match onAgentResult agent d st with
    | (st1, Except.ok out) => Except.ok (st1, out)
    | (_, Except.error _) =>
      Except.error ⟨[OutLine.uncaughtLine "TypeError"], 1⟩
  | .agentScriptError agent d => Except.ok (onAgentScriptError agent d st)
  | .agentError agent m => Except.ok (onAgentError agent m st)
  | .agentComplete agent => Except.ok (onAgentComplete agent st)
  | .agentProgress _ now => Except.ok (updateProgress now timeStart st)
  | .agentBeat _ now => Except.ok (onAgentBeat now timeStart st)
  | .dispatch agents =>
    match onDispatch agents st with
    | Except.error f => Except.error ⟨[OutLine.panicLine f.message], f.exitCode⟩
    | Except.ok r => Except.ok r
  | .complete now =>
    let c := onComplete now timeStart st
    Except.error ⟨c.output, c.exitCode⟩

/-- Dispatch a sequence of events in order, stopping at the first
terminating one. -/
def runEvents (timeStart : Int) : List BatchEvent → BatchState →
    Except ExitOutcome BatchState
  | [], st => Except.ok st
  | e :: rest, st =>
    match stepEvent timeStart st e with
    | Except.error x => Except.error x
    | Except.ok (st1, _) => runEvents timeStart rest st1

/-- Fold the state component of the `agentResult` handler over a sequence
of `agentResult` events (each pair is the handler's `(agent, details)`
arguments).  The handler mutates the counters before it prints, so this is
the counter evolution of the run regardless of what the walks print. -/
def applyAgentResults (evs : List (String × AgentResultDetails))
    (st : BatchState) : BatchState :=
  evs.foldl (fun s e => (onAgentResult e.1 e.2 s).1) st

/-- Repeated calls of `updateProgress` (as successive
`agentProgress` events cause), keeping only the state. -/
def iterateProgress (now timeStart : Int) : Nat → BatchState → BatchState
  | 0, st => st
  | n + 1, st => (updateProgress now timeStart (iterateProgress now timeStart n st)).1

/-! ## Connection negotiation and readiness (cli.js lines 242-362) -/

/-- What a hub `error` event handler does with the error. -/
structure HubError where
  code : String
deriving Repr, DecidableEq

/-- Outcome of a hub `error` handler: a formatted `panic` with an exit
status, or the error rethrown to become an uncaught failure. -/
inductive HubErrorOutcome where
  | panicExit (message : String) (code : Nat)
  | rethrown (e : HubError)
deriving Repr, DecidableEq

/-- The `error` handler `createHub` installs on the fallback local hub
(cli.js lines 307-309): `throw err`, unconditionally, for every error. -/
def createHubOnError (e : HubError) : HubErrorOutcome :=
  HubErrorOutcome.rethrown e

/-- The `error` handler `startServer` installs (cli.js lines 351-357):
a bind conflict panics with a message naming the port; anything else is
rethrown. -/
def startServerOnError (port : Nat) (e : HubError) : HubErrorOutcome :=
  if e.code = "EADDRINUSE" then
    HubErrorOutcome.panicExit
      ("Unable to start the Hub because port " ++ toString port ++ " is in use.") 1
  else HubErrorOutcome.rethrown e

/-- The synchronous actions `createHub` performs, in order. -/
inductive HubSetupStep where
  | logCreating (url : String)
  | listenOn (port : Nat)
  | onErrorRethrow
  | createClient (url : String)
  | connectAttempt
deriving Repr, DecidableEq

/-- Function `createHub` (cli.js lines 295-320): log, construct the hub, listen on
the port, install the rethrowing error handler, create a client for the
local url and attempt to connect — the connect attempt is made
unconditionally, before any asynchronous `error` event can arrive. -/
def createHubSteps (port : Nat) : List HubSetupStep :=
  let url := "http://localhost:" ++ toString port
  [HubSetupStep.logCreating url, HubSetupStep.listenOn port,
    HubSetupStep.onErrorRethrow, HubSetupStep.createClient url,
    HubSetupStep.connectAttempt]

/-- What the `getAgents` callback of `prepareTests` decides (cli.js lines
262-283). -/
inductive PrepareOutcome where
  | submitted
  | thrown (message : String)
  | waiting (notice : String) (prompt : String)
deriving Repr, DecidableEq

/-- The readiness decision of `prepareTests` (cli.js lines 262-283): with
agents attached, submit the batch; with none and a non-interactive stderr,
throw; otherwise print a waiting notice and block on one line of input. -/
def prepareTestsDecision (agents : List String) (tty : Bool) (url : String) :
    PrepareOutcome :=
  if agents.length > 0 then PrepareOutcome.submitted
  else if !tty then
    PrepareOutcome.thrown "Unable to connect to Hub or start an interactive session."
  else
    PrepareOutcome.waiting ("Waiting for agents to connect at " ++ url ++ ".")
      "When ready, press Enter to begin testing.\n"

/-- The `uncaughtException` handler installed by `setupProcess` (cli.js
lines 33-60): format a report (interactive and non-interactive variants)
around the stringified fault and `panic`, i.e. exit status 1.  `err` is
the thrown value after the stack extraction of lines 37-39. -/
def onUncaughtException (version bugsUrl nodeVersion : String) (tty : Bool)
    (err : String) : FatalExit :=
  let message :=
    if tty then
      String.intercalate "\n" [
        bad ++ " Whoops!" ++ " " ++ err, "",
        "If you believe this is a bug in Yeti, please report it.",
        "    " ++ bugsUrl,
        "    Yeti v" ++ version,
        "    Node.js " ++ nodeVersion]
    else
      String.intercalate "\n" [
        "Yeti v" ++ version ++ " (Node.js " ++ nodeVersion ++ ") Error: " ++ err,
        "Report this bug at " ++ bugsUrl]
  panic message

/-! ## Concrete inputs and projections used by the theorems -/

/-- A failing leaf shaped exactly as the spec's data model describes one:
`name`/`result`/`message` plus the `passed`/`failed`/`type` markers said
to identify a leaf. -/
def specLeaf : JsVal :=
  .obj [("name", .str "deep test"), ("result", .str "fail"),
    ("message", .str "boom\nmore"), ("passed", .num 0), ("failed", .num 1),
    ("type", .str "test")]

/-- A result tree with exactly one failing leaf at depth 3 inside two
nested suite mappings, the mappings being pure name-to-child maps as in
the spec's `ResultNode` data model. -/
def specTree : JsVal :=
  .obj [("Outer Suite", .obj [("Inner Suite", .obj [("deep test", specLeaf)])])]

/-- A depth-3 result tree in the shape the code actually handles: the
depth-1 suite carries a `name` and a truthy `failed` count, the depth-2
node carries the `passed`/`failed`/`type` markers, and at depth 3 sit one
passing and one failing leaf. -/
def yuiTree (sn cn tn msg pn pmsg : String) : JsVal :=
  .obj [("SuiteKey", .obj [
    ("name", .str sn),
    ("failed", .num 1),
    ("CaseKey", .obj [
      ("name", .str cn),
      ("passed", .num 1),
      ("failed", .num 1),
      ("type", .str "testcase"),
      ("PassKey", .obj [("name", .str pn), ("result", .str "pass"),
        ("message", .str pmsg)]),
      ("FailKey", .obj [("name", .str tn), ("result", .str "fail"),
        ("message", .str msg)])])])]

/-- The spinner glyph of a rendered progress line, when the output is a
single progress line. -/
def progressGlyph : List OutLine → Option String
  | [OutLine.progress g _ _ _ _] => some g
  | _ => none

/-- The percent figure of a rendered progress line, when the output is a
single progress line. -/
def progressPercentStr : List OutLine → Option String
  | [OutLine.progress _ p _ _ _] => some p
  | _ => none

/-! ## Theorems -/

/-- Folding the `agentResult` handler adds up the `passed` payloads. -/
theorem applyAgentResults_passed (evs : List (String × AgentResultDetails))
    (st : BatchState) :
    (applyAgentResults evs st).passed =
      st.passed + (evs.map (fun e => e.2.passed)).sum := by
  induction evs generalizing st with
  | nil => simp [applyAgentResults]
  | cons e rest ih =>
    simp only [applyAgentResults, List.foldl_cons, List.map_cons, List.sum_cons] at *
    rw [ih]
    simp [onAgentResult]
    omega

/-- Folding the `agentResult` handler adds up the `failed` payloads. -/
theorem applyAgentResults_failed (evs : List (String × AgentResultDetails))
    (st : BatchState) :
    (applyAgentResults evs st).failed =
      st.failed + (evs.map (fun e => e.2.failed)).sum := by
  induction evs generalizing st with
  | nil => simp [applyAgentResults]
  | cons e rest ih =>
    simp only [applyAgentResults, List.foldl_cons, List.map_cons, List.sum_cons] at *
    rw [ih]
    simp [onAgentResult]
    omega

/-- C1: for every sequence of `agentResult` events with non-negative
counts, after all events are applied the aggregate's passed count is the
sum of the `passed` payloads and its failed count the sum of the `failed`
payloads, and any permutation of the sequence yields the same final
counters. -/
theorem agentResult_counts_sum_perm (tests : List String)
    (evs evs2 : List (String × AgentResultDetails)) (hp : evs.Perm evs2) :
    (applyAgentResults evs (initialBatchState tests)).passed =
      (evs.map (fun e => e.2.passed)).sum ∧
    (applyAgentResults evs (initialBatchState tests)).failed =
      (evs.map (fun e => e.2.failed)).sum ∧
    (applyAgentResults evs2 (initialBatchState tests)).passed =
      (applyAgentResults evs (initialBatchState tests)).passed ∧
    (applyAgentResults evs2 (initialBatchState tests)).failed =
      (applyAgentResults evs (initialBatchState tests)).failed := by
  have hpassed := applyAgentResults_passed evs (initialBatchState tests)
  have hfailed := applyAgentResults_failed evs (initialBatchState tests)
  have hpassed2 := applyAgentResults_passed evs2 (initialBatchState tests)
  have hfailed2 := applyAgentResults_failed evs2 (initialBatchState tests)
  have hsp : (evs2.map (fun e => e.2.passed)).sum =
      (evs.map (fun e => e.2.passed)).sum :=
    ((hp.map (fun e => e.2.passed)).sum_eq).symm
  have hsf : (evs2.map (fun e => e.2.failed)).sum =
      (evs.map (fun e => e.2.failed)).sum :=
    ((hp.map (fun e => e.2.failed)).sum_eq).symm
  rw [show (initialBatchState tests).passed = 0 from rfl, Nat.zero_add]
    at hpassed hpassed2
  rw [show (initialBatchState tests).failed = 0 from rfl, Nat.zero_add]
    at hfailed hfailed2
  exact ⟨hpassed, hfailed, by rw [hpassed2, hsp, hpassed],
    by rw [hfailed2, hsf, hfailed]⟩

/-- Witness for C1 at a concrete pair of event sequences that are
permutations of each other. -/
theorem agentResult_counts_sum_perm_w :
    (applyAgentResults [("a", ⟨"A", 2, 1, JsVal.undefined⟩), ("b", ⟨"B", 3, 0, JsVal.undefined⟩)]
      (initialBatchState ["t"])).passed =
      ([("a", (⟨"A", 2, 1, JsVal.undefined⟩ : AgentResultDetails)),
        ("b", ⟨"B", 3, 0, JsVal.undefined⟩)].map (fun e => e.2.passed)).sum ∧
    (applyAgentResults [("a", ⟨"A", 2, 1, JsVal.undefined⟩), ("b", ⟨"B", 3, 0, JsVal.undefined⟩)]
      (initialBatchState ["t"])).failed =
      ([("a", (⟨"A", 2, 1, JsVal.undefined⟩ : AgentResultDetails)),
        ("b", ⟨"B", 3, 0, JsVal.undefined⟩)].map (fun e => e.2.failed)).sum ∧
    (applyAgentResults [("b", ⟨"B", 3, 0, JsVal.undefined⟩), ("a", ⟨"A", 2, 1, JsVal.undefined⟩)]
      (initialBatchState ["t"])).passed =
      (applyAgentResults [("a", ⟨"A", 2, 1, JsVal.undefined⟩), ("b", ⟨"B", 3, 0, JsVal.undefined⟩)]
        (initialBatchState ["t"])).passed ∧
    (applyAgentResults [("b", ⟨"B", 3, 0, JsVal.undefined⟩), ("a", ⟨"A", 2, 1, JsVal.undefined⟩)]
      (initialBatchState ["t"])).failed =
      (applyAgentResults [("a", ⟨"A", 2, 1, JsVal.undefined⟩), ("b", ⟨"B", 3, 0, JsVal.undefined⟩)]
        (initialBatchState ["t"])).failed :=
  agentResult_counts_sum_perm ["t"]
    ([("a", ⟨"A", 2, 1, JsVal.undefined⟩), ("b", ⟨"B", 3, 0, JsVal.undefined⟩)] :
      List (String × AgentResultDetails))
    ([("b", ⟨"B", 3, 0, JsVal.undefined⟩), ("a", ⟨"A", 2, 1, JsVal.undefined⟩)] :
      List (String × AgentResultDetails))
    (List.Perm.swap (("b", ⟨"B", 3, 0, JsVal.undefined⟩) : String × AgentResultDetails)
      ("a", ⟨"A", 2, 1, JsVal.undefined⟩) [])

/-- C2: at the `complete` terminal event the exit status is 0 exactly when
the aggregate failed count is 0 (1 otherwise), and an aggregate tally line
is printed in both cases. -/
theorem complete_exit_iff (now timeStart : Int) (st : BatchState) :
    ((onComplete now timeStart st).exitCode = 0 ↔ st.failed = 0) ∧
    ((onComplete now timeStart st).exitCode = if st.failed = 0 then 0 else 1) ∧
    (∃ l ∈ (onComplete now timeStart st).output, isTally l = true) := by
  have hf : (updateProgress now timeStart st).1.failed = st.failed := rfl
  by_cases h : st.failed = 0
  · refine ⟨by simp [onComplete, hf, h], by simp [onComplete, hf, h],
      OutLine.passTally ((updateProgress now timeStart st).1.passed + st.failed)
        (now - timeStart), ?_, rfl⟩
    simp [onComplete, hf, h]
  · refine ⟨by simp [onComplete, hf, h], by simp [onComplete, hf, h],
      OutLine.failTally st.failed
        ((updateProgress now timeStart st).1.passed + st.failed)
        (now - timeStart), ?_, rfl⟩
    simp [onComplete, hf, h]

/-- C3: a `dispatch` event with a non-empty agent list multiplies the
initial `total` (which starts as `tests.length`) exactly once by the agent
count, leaving `tests.length * N`. -/
theorem dispatch_total_eq (tests agents : List String) (h : agents ≠ []) :
    (initialBatchState tests).total = tests.length ∧
    onDispatch agents (initialBatchState tests) =
      Except.ok ({ initialBatchState tests with
        total := tests.length * agents.length },
        [OutLine.startedLine agents]) := by
  refine ⟨rfl, ?_⟩
  unfold onDispatch
  rw [if_neg (by simpa [List.length_eq_zero] using h)]
  rfl

/-- Witness for C3: three test files dispatched to two agents leave
`total = 6`. -/
theorem dispatch_total_eq_w :
    (initialBatchState ["a", "b", "c"]).total = List.length ["a", "b", "c"] ∧
    onDispatch ["x", "y"] (initialBatchState ["a", "b", "c"]) =
      Except.ok ({ initialBatchState ["a", "b", "c"] with
        total := List.length ["a", "b", "c"] * List.length ["x", "y"] },
        [OutLine.startedLine ["x", "y"]]) :=
  dispatch_total_eq ["a", "b", "c"] ["x", "y"] (by decide)

/-- C4: a `dispatch` event with an empty agent list terminates the run
with exit status 1 and the "No browsers connected" diagnostic before any
following event (in particular any `agentResult`) is processed, and the
handler produces no successor state — `total` is never multiplied. -/
theorem empty_dispatch_fatal (timeStart : Int) (tests : List String)
    (evs : List BatchEvent) (st : BatchState) :
    runEvents timeStart (BatchEvent.dispatch [] :: evs) (initialBatchState tests) =
      Except.error ⟨[OutLine.panicLine noBrowsersMessage], 1⟩ ∧
    onDispatch [] st = Except.error (panic noBrowsersMessage) := ⟨rfl, rfl⟩

/-- C5 counterexample: rendering the progress line with `currentIndex = 0`
and `totalExpected = 0` shows a percent figure of `"NaN"` — `0/0` is `NaN`
in JavaScript and `toFixed(0)` renders it as such — not the `"0"` the
claim asserts. -/
theorem progress_zero_zero_nan_cex :
    jsToFixed0 (progressPercent 0 0) = "NaN" ∧
    jsToFixed0 (progressPercent 0 0) ≠ "0" ∧
    (updateProgress 0 0 (initialBatchState [])).2 =
      [OutLine.progress "/" "NaN" 0 0 "NaN"] := by
  refine ⟨?_, ?_, ?_⟩ <;> decide

/-- C5 amended: with `currentIndex = 0` and `totalExpected = 0` the
renderer never faults (it is a total function) and the percent figure it
prints is `"NaN"`, not 0%. -/
theorem progress_zero_total_renders_nan (now timeStart : Int)
    (p f b si : Nat) :
    (updateProgress now timeStart
      { passed := p, failed := f, currentIndex := 0, total := 0,
        beats := b, spinIndex := si }).2 =
      [OutLine.progress (spin.getD si "undefined") "NaN" 0 0
        (jsToFixed2 (jsDiv (JsNum.fin ((b * 1000 : Nat) : ℚ))
          (JsNum.fin ((now - timeStart : Int) : ℚ))))] := by
  simp [updateProgress, progressPercent, jsDiv, jsMul, jsToFixed0]

/-- C6 counterexample: on a bind conflict (`EADDRINUSE`) the error handler
of the batch run's fallback hub (`createHub`, cli.js lines 307-309)
rethrows the error instead of panicking with the port-naming diagnostic,
and `createHub` attempts a client connection unconditionally right after
`listen`. -/
theorem fallback_hub_bind_error_cex :
    createHubOnError ⟨"EADDRINUSE"⟩ = HubErrorOutcome.rethrown ⟨"EADDRINUSE"⟩ ∧
    createHubOnError ⟨"EADDRINUSE"⟩ ≠
      HubErrorOutcome.panicExit
        "Unable to start the Hub because port 9000 is in use." 1 ∧
    HubSetupStep.connectAttempt ∈ createHubSteps 9000 := by
  refine ⟨rfl, ?_, ?_⟩ <;> decide

/-- C6 amended: in the batch run's fallback hub every hub error — bind
conflict included — is rethrown and becomes an uncaught failure (fatal,
exit 1 via the process-level handler); the diagnostic naming the offending
port exists only in the standalone server path (`startServer`), which also
rethrows every non-bind error; and the fallback path attempts a connection
regardless, immediately after `listen`. -/
theorem hub_error_handlers (p : Nat) (e : HubError)
    (h : e.code ≠ "EADDRINUSE") :
    createHubOnError e = HubErrorOutcome.rethrown e ∧
    startServerOnError p ⟨"EADDRINUSE"⟩ =
      HubErrorOutcome.panicExit
        ("Unable to start the Hub because port " ++ toString p ++
          " is in use.") 1 ∧
    startServerOnError p e = HubErrorOutcome.rethrown e ∧
    HubSetupStep.connectAttempt ∈ createHubSteps p := by
  refine ⟨rfl, by simp [startServerOnError], by simp [startServerOnError, h], ?_⟩
  simp [createHubSteps]

/-- Witness for C6 amended at port 7000 and a non-bind error code. -/
theorem hub_error_handlers_w :
    createHubOnError ⟨"ECONNRESET"⟩ = HubErrorOutcome.rethrown ⟨"ECONNRESET"⟩ ∧
    startServerOnError 7000 ⟨"EADDRINUSE"⟩ =
      HubErrorOutcome.panicExit
        ("Unable to start the Hub because port " ++ toString 7000 ++
          " is in use.") 1 ∧
    startServerOnError 7000 ⟨"ECONNRESET"⟩ =
      HubErrorOutcome.rethrown ⟨"ECONNRESET"⟩ ∧
    HubSetupStep.connectAttempt ∈ createHubSteps 7000 :=
  hub_error_handlers 7000 ⟨"ECONNRESET"⟩ (by decide)

/-- C7: with zero agents attached and a non-interactive error stream,
`prepareTests` throws a descriptive error instead of submitting the batch;
the process-level handler turns the throw into exit status 1; and since
the batch is never submitted, no progress line can ever be rendered
(`updateProgress` lives inside `submitBatch`). -/
theorem no_agents_noninteractive_fatal (url version bugsUrl nodeVersion : String) :
    prepareTestsDecision [] false url =
      PrepareOutcome.thrown
        "Unable to connect to Hub or start an interactive session." ∧
    (onUncaughtException version bugsUrl nodeVersion false
      "Unable to connect to Hub or start an interactive session.").exitCode = 1 ∧
    prepareTestsDecision [] false url ≠ PrepareOutcome.submitted := by
  refine ⟨rfl, rfl, ?_⟩
  simp [prepareTestsDecision]

/-- C8 counterexample: on a tree shaped exactly as the claim describes —
one failing leaf at depth 3 inside two nested suite mappings — the walker
prints no failure block at all (only the trailing blank line): the top
loop requires a truthy `failed` property on the depth-1 node, which a pure
suite mapping does not have. -/
theorem deep_leaf_prints_nothing_cex :
    displayVerboseResult specTree = Except.ok [OutLine.blankLine] := rfl

/-- C8 amended: a failure block is printed for a depth-3 failing leaf only
when the depth-1 suite carries a truthy `failed` count (and a `name`) and
the depth-2 node carries the `passed`/`failed`/`type` markers; the block
then shows the depth-1 suite's name exactly once, the failing test's name
with the first line of its message, and the remaining message lines as
indented continuation lines, while passing leaves produce no output. -/
theorem deep_leaf_failure_block (sn cn tn msg pn pmsg : String) :
    displayVerboseResult (yuiTree sn cn tn msg pn pmsg) =
      Except.ok ([OutLine.suiteLine sn,
        OutLine.testLine tn ((splitNewlines msg).headD "")] ++
        ((splitNewlines msg).drop 1).map OutLine.contLine ++
        [OutLine.blankLine]) := by
  simp only [displayVerboseResult, yuiTree, resultLoop, suiteLoop, walk,
    walkFields, walkChars]
  rfl

/-- C9: the `agentScriptError` and `agentError` handlers only log — every
field of the batch aggregate, including the heartbeat counter and spinner
index, is left exactly as it was. -/
theorem error_handlers_frame (agent : String) (d : ScriptErrorDetails)
    (message : String) (st : BatchState) :
    (onAgentScriptError agent d st).1 = st ∧
    (onAgentError agent message st).1 = st := ⟨rfl, rfl⟩

/-- After one `updateProgress` call the spinner index advances by one,
wrapping to 0 past the last frame. -/
theorem updateProgress_spinIndex (now timeStart : Int) (st : BatchState) :
    (updateProgress now timeStart st).1.spinIndex =
      if st.spinIndex + 1 > 3 then 0 else st.spinIndex + 1 := rfl

/-- C10: the spinner index starts at 0, stays in `{0, 1, 2, 3}` after
every `updateProgress` call, equals `n % 4` after `n` calls, and the glyph
of the next render is `spin[n % 4]` — one of the four frames, cycling in
list order. -/
theorem spinner_invariant (now timeStart : Int) (tests : List String)
    (n : Nat) (st : BatchState) :
    (initialBatchState tests).spinIndex = 0 ∧
    (updateProgress now timeStart st).1.spinIndex < 4 ∧
    (iterateProgress now timeStart n (initialBatchState tests)).spinIndex = n % 4 ∧
    progressGlyph (updateProgress now timeStart
      (iterateProgress now timeStart n (initialBatchState tests))).2 =
      some (spin.getD (n % 4) "undefined") ∧
    spin.getD (n % 4) "undefined" ∈ spin := by
  have hwrap : ∀ s : BatchState, (updateProgress now timeStart s).1.spinIndex =
      if s.spinIndex + 1 > 3 then 0 else s.spinIndex + 1 :=
    fun s => rfl
  have hmod : (iterateProgress now timeStart n (initialBatchState tests)).spinIndex
      = n % 4 := by
    induction n with
    | zero => rfl
    | succ m ih =>
      show (updateProgress now timeStart
        (iterateProgress now timeStart m (initialBatchState tests))).1.spinIndex
        = (m + 1) % 4
      rw [hwrap, ih]
      split <;> omega
  refine ⟨rfl, ?_, hmod, ?_, ?_⟩
  · rw [hwrap st]
    split <;> omega
  · show some (spin.getD (iterateProgress now timeStart n
      (initialBatchState tests)).spinIndex "undefined") = _
    rw [hmod]
  · have h4 : n % 4 = 0 ∨ n % 4 = 1 ∨ n % 4 = 2 ∨ n % 4 = 3 := by omega
    rcases h4 with h | h | h | h <;> rw [h] <;> decide

end Yeti
